import Mathlib

/-!
Shallow embedding of the doppelkopf backend (`src/main.py`, FastAPI + psycopg2)
and verification of its natural-language specification.

The database is modelled as three in-memory tables (`players`, `rounds`,
`round_players`) plus the `rounds.id` sequence counter (Postgres SERIAL: the
counter advances on every insert and is never reset by deletes).  Each request
handler becomes a pure Lean function.  Read-only handlers return
`Except ApiError result`; mutating handlers return `Except ApiError result × DB`
where the second component is the post-transaction database state.

Transaction semantics: the source wraps each handler body in
`with get_conn() as conn:` — psycopg2's connection context manager commits the
transaction on normal exit and rolls it back when an exception escapes the
block.  This is modelled by the `transaction` combinator: the body threads the
database state through an `Except`; on error the original state is returned
(rollback) and on success the final state is committed.
-/

namespace Doppelkopf

/-- A row of the `players` table (`SELECT id, name FROM players`). -/
structure Player where
  id : Int
  name : String
deriving DecidableEq, Repr

/-- A row of the `rounds` table: `id` (generated on insert), `played_at`
(caller-supplied string timestamp), `winning_team` (nullable). -/
structure Round where
  id : Int
  played_at : String
  winning_team : Option String
deriving DecidableEq, Repr

/-- A row of the `round_players` table. -/
structure RoundPlayerRow where
  round_id : Int
  player_id : Int
  team : String
  points : Int
  reservation : String
deriving DecidableEq, Repr

/-- The database state: the three tables plus the `rounds.id` sequence. -/
structure DB where
  players : List Player
  rounds : List Round
  round_players : List RoundPlayerRow
  next_round_id : Int
deriving DecidableEq, Repr

/-- Pydantic model `RoundPlayer` (request-side entry of `players`). -/
structure RoundPlayerReq where
  player_id : Int
  team : String
  points : Int
  reservation : String
deriving DecidableEq, Repr

/-- Pydantic model `CreateRoundRequest`.  `winning_team` is a mandatory
non-nullable `str` field. -/
structure CreateRoundRequest where
  played_at : String
  winning_team : String
  players : List RoundPlayerReq
deriving DecidableEq, Repr

/-- Pydantic model `DeleteRoundRequest`. -/
structure DeleteRoundRequest where
  round_id : Int
deriving DecidableEq, Repr

/-- Response body of `POST /rounds`: `{"status": "ok", "round_id": <id>}`. -/
structure CreateRoundResponse where
  status : String
  round_id : Int
deriving DecidableEq, Repr

/-- Response body of `POST /rounds/delete`:
`{"status": "ok", "deleted_round_id": <id>}`. -/
structure DeleteRoundResponse where
  status : String
  deleted_round_id : Int
deriving DecidableEq, Repr

/-- Response body of `GET /players/{player_id}/stats`.  The two rounded fields
are exact rationals here (the source rounds Python floats / Decimals to two
decimal places). -/
structure PlayerStatsResponse where
  player_id : Int
  rounds_played : Int
  rounds_won : Int
  win_ratio : ℚ
  total_points : Int
  average_points : ℚ
deriving DecidableEq, Repr

/-- The dict actually returned by `get_player_progression`: the scalar fields
of the single row obtained from `fetchone()`.  (The declared pydantic
`response_model` expects `played_at : list[str]` and `progression : list[int]`,
which this scalar-shaped dict does not satisfy — a further symptom of the
single-row defect.) -/
structure PlayerProgressionResponse where
  player_id : Int
  round_id : Int
  played_at : String
  progression : Int
deriving DecidableEq, Repr

/-- Failure modes of a handler.
`httpException s d` is `raise HTTPException(s, d)` from the source;
`integrityError` is a database constraint violation raised by psycopg2
(surfaced as HTTP 500 by FastAPI); `typeError` is an unhandled Python
`TypeError` (surfaced as HTTP 500 by FastAPI). -/
inductive ApiError where
  | httpException (status : Nat) (detail : String)
  | integrityError (msg : String)
  | typeError (msg : String)
deriving DecidableEq, Repr

/-- psycopg2 `with get_conn() as conn:` semantics: run the body as one
transaction; commit the resulting state on success, roll back to the original
state when an exception escapes. -/
def transaction (db : DB) (body : DB → Except ApiError (α × DB)) :
    Except ApiError α × DB :=
  match body db with
  | .ok (a, db') => (.ok a, db')
  | .error e => (.error e, db)

/-- Executes `INSERT INTO rounds (played_at, winning_team) VALUES (%s, %s) RETURNING id`:
appends one row with the generated sequence id and returns that id. -/
def insertRound (db : DB) (played_at : String) (winning : String) : Int × DB :=
  (db.next_round_id,
   { db with
       rounds := db.rounds ++ [⟨db.next_round_id, played_at, some winning⟩],
       next_round_id := db.next_round_id + 1 })

/-- Executes `INSERT INTO round_players (round_id, player_id, team, points, reservation)
VALUES (...)`.  Modelled from the spec: `RoundPlayer.player_id` references
`Player` (§3 data model); the DDL carrying the foreign-key constraint is not in
the repository, so a violated reference is the modelled failure mode of this
insert (psycopg2 `IntegrityError`). -/
def insertRoundPlayer (db : DB) (rid : Int) (p : RoundPlayerReq) :
    Except ApiError DB :=
  if db.players.any (fun pl => pl.id == p.player_id) then
    .ok { db with
            round_players :=
              db.round_players ++ [⟨rid, p.player_id, p.team, p.points, p.reservation⟩] }
  else
    .error (.integrityError "insert or update on table round_players violates foreign key constraint")

/-- The `for p in data.players:` insert loop of `create_round`. -/
def insertRoundPlayers (db : DB) (rid : Int) :
    List RoundPlayerReq → Except ApiError DB
  | [] => .ok db
  | p :: ps =>
      match insertRoundPlayer db rid p with
      | .ok db' => insertRoundPlayers db' rid ps
      | .error e => .error e

/-- Handler `create_round` for `POST /rounds` (src/main.py:61-87). -/
def create_round (db : DB) (data : CreateRoundRequest) :
    Except ApiError CreateRoundResponse × DB :=
  if data.players.length ≠ 4 then
    (.error (.httpException 400 "Exactly 4 players required"), db)
  else
    transaction db (fun db0 =>
      let rec_id := insertRound db0 data.played_at data.winning_team
      (insertRoundPlayers rec_id.2 rec_id.1 data.players).map
        (fun db2 => (⟨"ok", rec_id.1⟩, db2)))

/-- Modelled from the spec: deleting a Round cascades to delete all its
RoundPlayer rows (§3 data model; the handler's own comment says
"round_players will cascade", but the `ON DELETE CASCADE` DDL is not in the
repository).  `DELETE FROM rounds WHERE id = %s` with the cascade. -/
def deleteRoundCascade (db : DB) (rid : Int) : DB :=
  { db with
      rounds := db.rounds.filter (fun r => !(r.id == rid)),
      round_players := db.round_players.filter (fun rp => !(rp.round_id == rid)) }

/-- Handler `delete_round` for `POST /rounds/delete` (src/main.py:90-114):
`SELECT 1 FROM rounds WHERE id = %s`, 404 if `fetchone()` is `None`,
otherwise the cascading delete. -/
def delete_round (db : DB) (data : DeleteRoundRequest) :
    Except ApiError DeleteRoundResponse × DB :=
  transaction db (fun db0 =>
    if db0.rounds.any (fun r => r.id == data.round_id) then
      .ok (⟨"ok", data.round_id⟩, deleteRoundCascade db0 data.round_id)
    else
      .error (.httpException 404 "Round not found"))

/-- The join `FROM round_players rp JOIN rounds r ON r.id = rp.round_id`: one joined
row per matching pair. -/
def joinRounds (db : DB) : List (RoundPlayerRow × Round) :=
  db.round_players.flatMap (fun rp =>
    (db.rounds.filter (fun r => r.id == rp.round_id)).map (fun r => (rp, r)))

/-- The stats query's row set:
`WHERE rp.player_id = %s AND r.winning_team IS NOT NULL`. -/
def playerDecidedRows (db : DB) (pid : Int) : List (RoundPlayerRow × Round) :=
  (joinRounds db).filter
    (fun pr => pr.1.player_id == pid && pr.2.winning_team.isSome)

/-- The progression query's row set: `WHERE rp.player_id = %s` (no restriction
on `winning_team`). -/
def playerRows (db : DB) (pid : Int) : List (RoundPlayerRow × Round) :=
  (joinRounds db).filter (fun pr => pr.1.player_id == pid)

/-- The integer nearest `q * 100`, ties to even (the rounding of Python
`round` on the values the driver hands back), computed on the reduced
numerator and denominator: `f` is `⌊q * 100⌋` (`Int.fdiv` is floor division
and `q.den` is positive) and `r / d` is the fractional part, compared against
`1/2` by cross-multiplication. -/
def roundHalfEven100 (q : ℚ) : ℤ :=
  let n := q.num * 100
  let d := (q.den : ℤ)
  let f := n.fdiv d
  let r := n - f * d
  if 2 * r < d then f
  else if d < 2 * r then f + 1
  else if f % 2 = 0 then f else f + 1

/-- Python `round(x, 2)`: round to two decimal places, half to even. -/
def round2 (q : ℚ) : ℚ := mkRat (roundHalfEven100 q) 100

theorem round2_two_thirds : round2 (mkRat 2 3) = mkRat 67 100 := by decide

theorem round2_eighth : round2 (mkRat 1 8) = mkRat 12 100 := by decide

theorem round2_tie_up : round2 (mkRat 27 200) = mkRat 14 100 := by decide

/-- Handler `get_player_stats` for `GET /players/<player_id>/stats`
(src/main.py:116-157).  The aggregate query always returns exactly one row:
`COUNT(*)`, `SUM(CASE WHEN rp.team = r.winning_team THEN 1 ELSE 0 END)`,
`COALESCE(SUM(rp.points), 0)`, `COALESCE(AVG(rp.points), 0)` over
`playerDecidedRows`.  (In SQL, `rp.team = r.winning_team` with a NULL
`winning_team` lands in the ELSE branch, matching `some _ == none = false`;
such rows are in any case excluded by the WHERE filter.  The un-COALESCEd
`rounds_won` would be NULL on an empty row set, but that branch is cut off by
the 404 check before `rounds_won` is read.)  The two quotients are written
with `mkRat`, the exact rational quotient (`Rat.mkRat_eq_div`). -/
def get_player_stats (db : DB) (pid : Int) :
    Except ApiError PlayerStatsResponse :=
  let rows := playerDecidedRows db pid
  let rounds_played : Int := rows.length
  let rounds_won : Int :=
    (rows.map (fun pr => if (some pr.1.team == pr.2.winning_team : Bool) then (1 : ℤ) else 0)).sum
  let total_points : Int := (rows.map (fun pr => pr.1.points)).sum
  let average_points : ℚ :=
    if rows.length = 0 then 0 else mkRat total_points rows.length
  if rounds_played == 0 then
    .error (.httpException 404 "Player has no completed rounds")
  else
    let win_ratio : ℚ :=
      if rounds_played > 0 then mkRat rounds_won rows.length else 0
    .ok { player_id := pid
          rounds_played := rounds_played
          rounds_won := rounds_won
          win_ratio := round2 win_ratio
          total_points := total_points
          average_points := round2 average_points }

/-- The store's default text collation, modelled as strict codepoint-
lexicographic comparison of the character lists.  (Stated via `List.Lex`
rather than the built-in `String.lt` because the latter's extern `String.ltb`
does not reduce in the kernel; `textLT_iff_lt` shows the two agree.) -/
def textLT (a b : String) : Prop := List.Lex (· < ·) a.toList b.toList

instance : DecidableRel textLT := fun a b =>
  inferInstanceAs (Decidable (List.Lex (· < ·) a.toList b.toList))

theorem textLT_iff_lt (a b : String) : textLT a b ↔ a < b :=
  ⟨fun h => String.lt_iff_toList_lt.mpr h, fun h => String.lt_iff_toList_lt.mp h⟩

/-- Non-strict text collation: `textLT` or equal. -/
def textLE (a b : String) : Prop := textLT a b ∨ a = b

instance : DecidableRel textLE := fun a b =>
  inferInstanceAs (Decidable (textLT a b ∨ a = b))

theorem textLE_iff_le (a b : String) : textLE a b ↔ a ≤ b := by
  rw [String.le_iff_toList_le, le_iff_lt_or_eq]
  simp only [textLE, textLT, String.ext_iff]
  rfl

/-- Comparison for `ORDER BY name` in the players listing. -/
def nameLE (a b : Player) : Prop := textLE a.name b.name

instance : DecidableRel nameLE := fun a b =>
  inferInstanceAs (Decidable (textLE a.name b.name))

instance : IsTotal Player nameLE := ⟨fun a b => by
  simp only [nameLE, textLE_iff_le]
  exact le_total a.name b.name⟩

instance : IsTrans Player nameLE := ⟨fun a b c hab hbc => by
  simp only [nameLE, textLE_iff_le] at hab hbc ⊢
  exact le_trans hab hbc⟩

/-- Handler `get_players` for `GET /players` (src/main.py:159-172):
`SELECT id, name FROM players ORDER BY name`. -/
def get_players (db : DB) : List (Int × String) :=
  (db.players.insertionSort nameLE).map (fun p => (p.id, p.name))

/-- Comparison for `ORDER BY r.played_at, r.id` in the progression query:
ascending `played_at` (text collation), ties broken by ascending round id. -/
def progLE (a b : RoundPlayerRow × Round) : Prop :=
  textLT a.2.played_at b.2.played_at ∨
    (a.2.played_at = b.2.played_at ∧ a.2.id ≤ b.2.id)

instance : DecidableRel progLE := fun a b =>
  inferInstanceAs (Decidable (textLT a.2.played_at b.2.played_at ∨
    (a.2.played_at = b.2.played_at ∧ a.2.id ≤ b.2.id)))

/-- One row of the progression query's result set. -/
structure ProgRow where
  round_id : Int
  played_at : String
  progression : Int
deriving DecidableEq, Repr

/-- The window `SUM(rp.points) OVER (ORDER BY r.played_at, r.id ROWS BETWEEN UNBOUNDED
PRECEDING AND CURRENT ROW)`: running cumulative sum over the ordered rows. -/
def cumRows (acc : Int) : List (RoundPlayerRow × Round) → List ProgRow
  | [] => []
  | pr :: rest =>
      ⟨pr.2.id, pr.2.played_at, acc + pr.1.points⟩ :: cumRows (acc + pr.1.points) rest

/-- The full result set of the progression query (src/main.py:180-192):
all of the player's joined rows ordered by `(played_at, round_id)`, each
carrying the running sum of `points` up to and including itself. -/
def progressionRows (db : DB) (pid : Int) : List ProgRow :=
  cumRows 0 ((playerRows db pid).insertionSort progLE)

/-- Handler `get_player_progression` for `GET /players/<player_id>/progression`
(src/main.py:175-203): the handler calls `fetchone()` — it reads only the
FIRST row of the ordered result set and returns that row's scalar fields.
When the result set is empty, `fetchone()` yields `None` and
`playerProgression["round_id"]` raises a `TypeError`. -/
def get_player_progression (db : DB) (pid : Int) :
    Except ApiError PlayerProgressionResponse :=
  match (progressionRows db pid).head? with
  | none => .error (.typeError "NoneType object is not subscriptable")
  | some row => .ok ⟨pid, row.round_id, row.played_at, row.progression⟩

/-! ## Helper lemmas -/

/-- The row built by one `round_players` insert. -/
def mkRow (rid : Int) (p : RoundPlayerReq) : RoundPlayerRow :=
  ⟨rid, p.player_id, p.team, p.points, p.reservation⟩

theorem insertRoundPlayers_ok (rid : Int) :
    ∀ (ps : List RoundPlayerReq) (db db' : DB),
      insertRoundPlayers db rid ps = .ok db' →
      db' = { db with round_players := db.round_players ++ ps.map (mkRow rid) }
  | [], db, db', h => by
      simp [insertRoundPlayers] at h
      simp [← h]
  | p :: ps, db, db', h => by
      rw [insertRoundPlayers] at h
      by_cases hp : db.players.any (fun pl => pl.id == p.player_id)
      · rw [insertRoundPlayer, if_pos hp] at h
        have h1 : insertRoundPlayers
            { db with round_players := db.round_players ++ [mkRow rid p] }
            rid ps = .ok db' := h
        have := insertRoundPlayers_ok rid ps _ _ h1
        simp [this, mkRow]
      · rw [insertRoundPlayer, if_neg hp] at h
        exact absurd h (by simp)

/-- Either `create_round` fails and leaves the database untouched, or the
player list had length 4 and the full 5-row insert committed. -/
theorem create_round_cases (db : DB) (data : CreateRoundRequest) :
    (∃ e, create_round db data = (.error e, db)) ∨
      (data.players.length = 4 ∧
        create_round db data =
          (.ok ⟨"ok", db.next_round_id⟩,
           { db with
               rounds := db.rounds ++
                 [⟨db.next_round_id, data.played_at, some data.winning_team⟩],
               round_players := db.round_players ++ data.players.map (mkRow db.next_round_id),
               next_round_id := db.next_round_id + 1 })) := by
  by_cases h4 : data.players.length = 4
  · rw [create_round, if_neg (by simp [h4])]
    cases hins : insertRoundPlayers
        { db with
            rounds := db.rounds ++
              [⟨db.next_round_id, data.played_at, some data.winning_team⟩],
            next_round_id := db.next_round_id + 1 }
        db.next_round_id data.players with
    | error e =>
        left
        exact ⟨e, by simp [transaction, insertRound, hins, Except.map]⟩
    | ok db2 =>
        right
        refine ⟨h4, ?_⟩
        have h2 := insertRoundPlayers_ok db.next_round_id data.players _ _ hins
        simp [transaction, insertRound, hins, Except.map, h2]
  · left
    exact ⟨.httpException 400 "Exactly 4 players required",
      by rw [create_round, if_pos h4]⟩

/-! ## Claim theorems: round creation -/

/-- C1: for every create-round request with exactly 4 player entries, the
operation either fails with the database completely unchanged (no partial
insert ever persists), or succeeds, in which case it appends exactly one Round
row carrying the generated id `db.next_round_id` and the 4 RoundPlayer rows all
referencing that generated id, and returns `{"status": "ok", "round_id": <the
generated id>}`. -/
theorem create_round_atomic (db : DB) (data : CreateRoundRequest)
    (h : data.players.length = 4) :
    (∃ e, create_round db data = (.error e, db)) ∨
      create_round db data =
        (.ok ⟨"ok", db.next_round_id⟩,
         { db with
             rounds := db.rounds ++
               [⟨db.next_round_id, data.played_at, some data.winning_team⟩],
             round_players := db.round_players ++ data.players.map (mkRow db.next_round_id),
             next_round_id := db.next_round_id + 1 }) := by
  rcases create_round_cases db data with he | ⟨-, hok⟩
  · exact .inl he
  · exact .inr hok

/-- Sample database: four players, one decided round (id 1) with its four
participation rows, sequence at 2. -/
def sampleDB : DB :=
  { players := [⟨1, "Alice"⟩, ⟨2, "Bob"⟩, ⟨3, "Carol"⟩, ⟨4, "Dave"⟩],
    rounds := [⟨1, "2024-01-01T20:00:00", some "re"⟩],
    round_players :=
      [⟨1, 1, "re", 10, "none"⟩, ⟨1, 2, "re", 10, "none"⟩,
       ⟨1, 3, "kontra", -10, "none"⟩, ⟨1, 4, "kontra", -10, "none"⟩],
    next_round_id := 2 }

/-- A well-formed 4-player create-round request against `sampleDB`. -/
def sampleCreateReq : CreateRoundRequest :=
  { played_at := "2024-01-02T20:00:00",
    winning_team := "kontra",
    players :=
      [⟨1, "re", -5, "none"⟩, ⟨2, "kontra", 5, "none"⟩,
       ⟨3, "re", -5, "none"⟩, ⟨4, "kontra", 5, "none"⟩] }

theorem create_round_atomic_witness :
    sampleCreateReq.players.length = 4 ∧
      ((∃ e, create_round sampleDB sampleCreateReq = (.error e, sampleDB)) ∨
        create_round sampleDB sampleCreateReq =
          (.ok ⟨"ok", sampleDB.next_round_id⟩,
           { sampleDB with
               rounds := sampleDB.rounds ++
                 [⟨sampleDB.next_round_id, sampleCreateReq.played_at,
                   some sampleCreateReq.winning_team⟩],
               round_players := sampleDB.round_players ++
                 sampleCreateReq.players.map (mkRow sampleDB.next_round_id),
               next_round_id := sampleDB.next_round_id + 1 })) :=
  ⟨by decide, create_round_atomic sampleDB sampleCreateReq (by decide)⟩

/-- C2: for every create-round request whose player list length is not 4, the
operation fails with HTTP 400 `"Exactly 4 players required"` and the returned
database state is exactly the input state — the check fires before the
transaction body runs, so no row in any table is inserted or changed. -/
theorem create_round_wrong_count (db : DB) (data : CreateRoundRequest)
    (h : data.players.length ≠ 4) :
    create_round db data =
      (.error (.httpException 400 "Exactly 4 players required"), db) := by
  rw [create_round, if_pos h]

/-- A 3-player create-round request. -/
def shortCreateReq : CreateRoundRequest :=
  { played_at := "2024-01-02T20:00:00",
    winning_team := "re",
    players := [⟨1, "re", 1, "none"⟩, ⟨2, "kontra", 2, "none"⟩, ⟨3, "re", 3, "none"⟩] }

theorem create_round_wrong_count_witness :
    shortCreateReq.players.length ≠ 4 ∧
      create_round sampleDB shortCreateReq =
        (.error (.httpException 400 "Exactly 4 players required"), sampleDB) :=
  ⟨by decide, create_round_wrong_count sampleDB shortCreateReq (by decide)⟩

/-- C10: every round that a successful `create_round` call adds to the
database has `winning_team = some data.winning_team`, which is never `none`:
the request model's mandatory `winning_team : str` makes an undecided round
unproducible through this endpoint. -/
theorem create_round_winner_non_null (db : DB) (data : CreateRoundRequest)
    (resp : CreateRoundResponse) (db' : DB)
    (h : create_round db data = (.ok resp, db')) :
    ∀ r ∈ db'.rounds, r ∈ db.rounds ∨ r.winning_team ≠ none := by
  rcases create_round_cases db data with ⟨e, he⟩ | ⟨-, hok⟩
  · rw [he] at h
    exact absurd h (by simp)
  · rw [hok] at h
    have hdb : db' =
        { db with
            rounds := db.rounds ++
              [⟨db.next_round_id, data.played_at, some data.winning_team⟩],
            round_players := db.round_players ++ data.players.map (mkRow db.next_round_id),
            next_round_id := db.next_round_id + 1 } := by
      have := (Prod.mk.injEq _ _ _ _).mp h
      exact this.2.symm
    intro r hr
    rw [hdb] at hr
    simp only [List.mem_append, List.mem_singleton] at hr
    rcases hr with hr | hr
    · exact .inl hr
    · right
      rw [hr]
      simp

/-- The database state after `create_round sampleDB sampleCreateReq`. -/
def createdSampleDB : DB :=
  { players := [⟨1, "Alice"⟩, ⟨2, "Bob"⟩, ⟨3, "Carol"⟩, ⟨4, "Dave"⟩],
    rounds := [⟨1, "2024-01-01T20:00:00", some "re"⟩,
               ⟨2, "2024-01-02T20:00:00", some "kontra"⟩],
    round_players :=
      [⟨1, 1, "re", 10, "none"⟩, ⟨1, 2, "re", 10, "none"⟩,
       ⟨1, 3, "kontra", -10, "none"⟩, ⟨1, 4, "kontra", -10, "none"⟩,
       ⟨2, 1, "re", -5, "none"⟩, ⟨2, 2, "kontra", 5, "none"⟩,
       ⟨2, 3, "re", -5, "none"⟩, ⟨2, 4, "kontra", 5, "none"⟩],
    next_round_id := 3 }

theorem create_round_winner_non_null_witness :
    create_round sampleDB sampleCreateReq = (.ok ⟨"ok", 2⟩, createdSampleDB) ∧
      ∀ r ∈ createdSampleDB.rounds, r ∈ sampleDB.rounds ∨ r.winning_team ≠ none :=
  ⟨by rfl,
   create_round_winner_non_null sampleDB sampleCreateReq ⟨"ok", 2⟩ createdSampleDB (by rfl)⟩

/-! ## Claim theorems: round deletion -/

/-- No RoundPlayer row references a round id absent from `rounds`. -/
def noOrphans (db : DB) : Prop :=
  ∀ rp ∈ db.round_players, ∃ r ∈ db.rounds, r.id = rp.round_id

instance (db : DB) : Decidable (noOrphans db) :=
  inferInstanceAs (Decidable (∀ rp ∈ db.round_players, ∃ r ∈ db.rounds, r.id = rp.round_id))

/-- C5: for every round_id with no matching Round row, `delete_round` fails
with HTTP 404 `"Round not found"` — established by the explicit existence
query before any delete statement — and the returned database state is exactly
the input state. -/
theorem delete_round_missing (db : DB) (rid : Int)
    (h : ∀ r ∈ db.rounds, r.id ≠ rid) :
    delete_round db ⟨rid⟩ = (.error (.httpException 404 "Round not found"), db) := by
  have hany : db.rounds.any (fun r => r.id == rid) = false := by
    simp only [List.any_eq_false]
    intro r hr
    simpa using h r hr
  rw [delete_round, transaction, hany]
  rfl

theorem delete_round_missing_witness :
    (∀ r ∈ sampleDB.rounds, r.id ≠ 99) ∧
      delete_round sampleDB ⟨99⟩ =
        (.error (.httpException 404 "Round not found"), sampleDB) :=
  ⟨by decide, delete_round_missing sampleDB 99 (by decide)⟩

/-- C6: for every existing round_id, `delete_round` succeeds, returning
`{"status": "ok", "deleted_round_id": <the id>}`, and within the same
transaction removes the Round row and every RoundPlayer row referencing it;
afterwards no RoundPlayer row references the deleted round, and if the input
state had no orphaned RoundPlayer rows then neither does the output state. -/
theorem delete_round_cascades (db : DB) (rid : Int)
    (h : ∃ r ∈ db.rounds, r.id = rid) :
    delete_round db ⟨rid⟩ =
      (.ok ⟨"ok", rid⟩,
       { db with
           rounds := db.rounds.filter (fun r => !(r.id == rid)),
           round_players := db.round_players.filter (fun rp => !(rp.round_id == rid)) }) ∧
    (∀ rp ∈ (delete_round db ⟨rid⟩).2.round_players, rp.round_id ≠ rid) ∧
    (noOrphans db → noOrphans (delete_round db ⟨rid⟩).2) := by
  have hany : db.rounds.any (fun r => r.id == rid) = true := by
    simp only [List.any_eq_true]
    obtain ⟨r, hr, hid⟩ := h
    exact ⟨r, hr, by simpa using hid⟩
  have heq : delete_round db ⟨rid⟩ =
      (.ok ⟨"ok", rid⟩,
       { db with
           rounds := db.rounds.filter (fun r => !(r.id == rid)),
           round_players := db.round_players.filter (fun rp => !(rp.round_id == rid)) }) := by
    rw [delete_round, transaction, hany]
    rfl
  refine ⟨heq, ?_, ?_⟩
  · rw [heq]
    intro rp hrp
    simp only [List.mem_filter, Bool.not_eq_eq_eq_not, Bool.not_true, beq_eq_false_iff_ne,
      ne_eq] at hrp
    exact hrp.2
  · intro hno
    rw [heq]
    intro rp hrp
    simp only [List.mem_filter] at hrp
    obtain ⟨r, hr, hid⟩ := hno rp hrp.1
    refine ⟨r, ?_, hid⟩
    simp only [List.mem_filter]
    refine ⟨hr, ?_⟩
    rw [hid]
    exact hrp.2

theorem delete_round_cascades_witness :
    (∃ r ∈ createdSampleDB.rounds, r.id = 1) ∧
      (delete_round createdSampleDB ⟨1⟩ =
        (.ok ⟨"ok", 1⟩,
         { createdSampleDB with
             rounds := createdSampleDB.rounds.filter (fun r => !(r.id == 1)),
             round_players :=
               createdSampleDB.round_players.filter (fun rp => !(rp.round_id == 1)) }) ∧
       (∀ rp ∈ (delete_round createdSampleDB ⟨1⟩).2.round_players, rp.round_id ≠ 1) ∧
       (noOrphans createdSampleDB → noOrphans (delete_round createdSampleDB ⟨1⟩).2)) :=
  ⟨by decide, delete_round_cascades createdSampleDB 1 (by decide)⟩

/-! ## Claim theorems: player statistics -/

theorem sum_map_ite_count {α : Type} (p : α → Bool) (l : List α) :
    (l.map (fun a => if p a then (1 : ℤ) else 0)).sum = ((l.filter p).length : ℤ) := by
  induction l with
  | nil => simp
  | cons a t ih =>
      by_cases hp : p a
      · simp only [List.map_cons, List.sum_cons, if_pos hp, List.filter_cons, hp, ite_true,
          List.length_cons, ih]
        push_cast
        ring
      · simp [hp, ih, List.filter_cons]

/-- C3: whenever the player has at least one decided row, `get_player_stats`
returns exactly the aggregate of that player's RoundPlayer rows whose joined
Round has a non-null `winning_team`: `rounds_played` is the count of such
rows, `rounds_won` the count of those where the player's team equals the
round's winning team, `win_ratio` is `rounds_won / rounds_played` rounded to
two decimal places, `total_points` the sum of points, and `average_points`
their mean rounded to two decimal places. -/
theorem get_player_stats_spec (db : DB) (pid : Int)
    (h : playerDecidedRows db pid ≠ []) :
    get_player_stats db pid = .ok
      { player_id := pid
        rounds_played := ((playerDecidedRows db pid).length : ℤ)
        rounds_won := (((playerDecidedRows db pid).filter
            (fun pr => some pr.1.team == pr.2.winning_team)).length : ℤ)
        win_ratio := round2
          (((((playerDecidedRows db pid).filter
              (fun pr => some pr.1.team == pr.2.winning_team)).length : ℤ) : ℚ) /
            (((playerDecidedRows db pid).length : ℤ) : ℚ))
        total_points := ((playerDecidedRows db pid).map (fun pr => pr.1.points)).sum
        average_points := round2
          (((((playerDecidedRows db pid).map (fun pr => pr.1.points)).sum : ℤ) : ℚ) /
            (((playerDecidedRows db pid).length : ℤ) : ℚ)) } := by
  have hlen : (playerDecidedRows db pid).length ≠ 0 := by
    simpa [List.length_eq_zero] using h
  have h1 : ¬(((((playerDecidedRows db pid).length : ℕ) : ℤ) == 0) = true) := by
    simp only [beq_iff_eq, Int.natCast_eq_zero]
    exact hlen
  have h2 : ¬((playerDecidedRows db pid).length = 0) := hlen
  have h3 : ((((playerDecidedRows db pid).length : ℕ) : ℤ)) > 0 := by
    exact_mod_cast Nat.pos_of_ne_zero hlen
  rw [get_player_stats, if_neg h2, if_neg h1, if_pos h3, sum_map_ite_count,
    Rat.mkRat_eq_div, Rat.mkRat_eq_div]
  norm_cast

/-- Database for the spec's worked stats example: player 1 played three
decided rounds with points 10, 20, 30 and won the first two. -/
def statsDB : DB :=
  { players := [⟨1, "Alice"⟩, ⟨2, "Bob"⟩],
    rounds := [⟨1, "2024-01-01", some "re"⟩, ⟨2, "2024-01-02", some "re"⟩,
               ⟨3, "2024-01-03", some "kontra"⟩],
    round_players := [⟨1, 1, "re", 10, "none"⟩, ⟨2, 1, "re", 20, "none"⟩,
                      ⟨3, 1, "re", 30, "none"⟩],
    next_round_id := 4 }

theorem get_player_stats_spec_witness :
    playerDecidedRows statsDB 1 ≠ [] ∧
      get_player_stats statsDB 1 = .ok
        { player_id := 1
          rounds_played := ((playerDecidedRows statsDB 1).length : ℤ)
          rounds_won := (((playerDecidedRows statsDB 1).filter
              (fun pr => some pr.1.team == pr.2.winning_team)).length : ℤ)
          win_ratio := round2
            (((((playerDecidedRows statsDB 1).filter
                (fun pr => some pr.1.team == pr.2.winning_team)).length : ℤ) : ℚ) /
              (((playerDecidedRows statsDB 1).length : ℤ) : ℚ))
          total_points := ((playerDecidedRows statsDB 1).map (fun pr => pr.1.points)).sum
          average_points := round2
            (((((playerDecidedRows statsDB 1).map (fun pr => pr.1.points)).sum : ℤ) : ℚ) /
              (((playerDecidedRows statsDB 1).length : ℤ) : ℚ)) } :=
  ⟨by decide, get_player_stats_spec statsDB 1 (by decide)⟩

/-- The spec's worked stats example evaluated to concrete numbers: 3 decided
rounds, 2 wins, win ratio 0.67, 60 total points, average 20. -/
theorem get_player_stats_sample_eval :
    get_player_stats statsDB 1 = .ok ⟨1, 3, 2, mkRat 67 100, 60, mkRat 20 1⟩ := by
  rfl

/-- C7: whenever the player's aggregate over decided rounds is empty —
including players appearing only in rounds with NULL `winning_team` — the
post-aggregation check fires and `get_player_stats` fails with HTTP 404
`"Player has no completed rounds"`. -/
theorem get_player_stats_empty (db : DB) (pid : Int)
    (h : playerDecidedRows db pid = []) :
    get_player_stats db pid =
      .error (.httpException 404 "Player has no completed rounds") := by
  rw [get_player_stats, h]
  rfl

/-- Database whose only round is undecided (`winning_team` NULL): player 1
participates, so the player has rows but no completed rounds. -/
def undecidedDB : DB :=
  { players := [⟨1, "Alice"⟩, ⟨2, "Bob"⟩, ⟨3, "Carol"⟩, ⟨4, "Dave"⟩],
    rounds := [⟨1, "2024-01-05", none⟩],
    round_players := [⟨1, 1, "re", 10, "none"⟩, ⟨1, 2, "re", 10, "none"⟩,
                      ⟨1, 3, "kontra", -10, "none"⟩, ⟨1, 4, "kontra", -10, "none"⟩],
    next_round_id := 2 }

theorem get_player_stats_empty_witness :
    playerDecidedRows undecidedDB 1 = [] ∧
      get_player_stats undecidedDB 1 =
        .error (.httpException 404 "Player has no completed rounds") :=
  ⟨by decide, get_player_stats_empty undecidedDB 1 (by decide)⟩

/-! ## Claim theorems: player listing -/

/-- C9: for every database state, `get_players` returns all Player rows as
`(id, name)` pairs — a permutation of the `players` table, nothing filtered or
truncated — ordered by name ascending.  The handler is a pure function of the
database state, so repeated calls on unchanged data return the same
sequence. -/
theorem get_players_sorted (db : DB) :
    (get_players db).Perm (db.players.map (fun p => (p.id, p.name))) ∧
      (get_players db).Pairwise (fun a b => a.2 ≤ b.2) := by
  constructor
  · simp only [get_players]
    exact (List.perm_insertionSort nameLE db.players).map _
  · simp only [get_players, List.pairwise_map]
    exact (List.sorted_insertionSort nameLE db.players).imp
      (fun hab => (textLE_iff_le _ _).mp hab)

theorem get_players_sample_eval :
    get_players sampleDB = [(1, "Alice"), (2, "Bob"), (3, "Carol"), (4, "Dave")] := by
  decide

/-! ## Claim theorems: player progression -/

/-- Database for the progression example: player 1 has three rounds with
points 10, 5, 20 in `played_at` order; the middle round is undecided
(`winning_team` NULL), which the progression query does not filter out. -/
def progDB : DB :=
  { players := [⟨1, "Alice"⟩],
    rounds := [⟨1, "2024-01-01", some "re"⟩, ⟨2, "2024-01-02", none⟩,
               ⟨3, "2024-01-03", some "re"⟩],
    round_players := [⟨1, 1, "re", 10, "none"⟩, ⟨2, 1, "re", 5, "none"⟩,
                      ⟨3, 1, "re", 20, "none"⟩],
    next_round_id := 4 }

/-- C4 (code bug, src/main.py:195-202): the windowed query computes the full
cumulative sequence [10, 15, 35] over player 1's three rounds — one row per
round, ordered by `(played_at, round_id)` — exactly as the claim demands, but
the handler calls `fetchone()` and returns only the FIRST row's scalar
`round_id` / `played_at` / `progression` (progression 10), discarding the
rest of the ordered sequence. -/
theorem progression_truncated_to_first_row :
    progressionRows progDB 1 =
      [⟨1, "2024-01-01", 10⟩, ⟨2, "2024-01-02", 15⟩, ⟨3, "2024-01-03", 35⟩] ∧
      get_player_progression progDB 1 = .ok ⟨1, 1, "2024-01-01", 10⟩ := by
  exact ⟨by decide, by rfl⟩

/-- C8 (code bug, src/main.py:195-202): for a player with no RoundPlayer rows
the query result is empty, `fetchone()` yields `None`, and the subscript
`playerProgression["round_id"]` raises an unhandled `TypeError` (HTTP 500) —
neither a `NotFoundError` (404) nor an empty sequence. -/
theorem progression_missing_player_type_error :
    playerRows progDB 5 = [] ∧
      get_player_progression progDB 5 =
        .error (.typeError "NoneType object is not subscriptable") := by
  exact ⟨by decide, by rfl⟩

end Doppelkopf
